import Mathlib

/-!
# Verification of the complaint-box access-control core

Shallow embedding of the Express/Mongoose backend
(`src/server/server.js`, `src/server/middleware/auth.js`, the `User`
model with its pre-save hash hook and token methods, and the
`Complaint` schema).  Stateful route handlers become functions from a
`Store` (the document store) and a request to a response together with
the next store; time is an explicit `Nat` parameter (seconds).

External libraries are modelled by executable stand-ins:
* `bcryptjs` — `bcryptHash` tags the password with a fixed prefix
  standing for the salt-and-cost header of a real digest (per-record
  salt randomness is abstracted away; none of the verified properties
  depend on it); `bcryptCompare` recomputes and compares, as
  `bcrypt.compare` does.
* `jsonwebtoken` — a `Token` is its decoded payload plus issuance and
  expiry instants and the signing secret (standing for the signature);
  `jwtVerify` succeeds exactly when the secret matches and the clock
  has not reached the embedded expiry, which is `jsonwebtoken`'s
  behaviour (a token is reported expired once `now ≥ exp`).
-/

namespace ComplaintBox

/-- JavaScript truthiness of an optional string field of `req.body`:
`undefined` and the empty string are falsy. -/
def truthy : Option String → Bool
  | none => false
  | some s => s ≠ ""

/-- Model of `bcrypt.hash(password, 10)`: a salted one-way digest,
represented as the password tagged with the digest header. -/
def bcryptHash (password : String) : String :=
  "$2b$10$" ++ password

/-- Model of `bcrypt.compare(candidate, digest)`: recompute and compare. -/
def bcryptCompare (candidate digest : String) : Bool :=
  digest == bcryptHash candidate

/-- Decoded JWT payload as signed by the `User` model methods. -/
structure JwtPayload where
  _id : String
  email : String
  role : String
deriving Repr, DecidableEq

/-- Model of a signed JWT: payload, `iat`, embedded expiry `exp`
(seconds), and the signing secret (standing for the signature). -/
structure Token where
  payload : JwtPayload
  iat : Nat
  exp : Nat
  secret : String
deriving Repr, DecidableEq

/-- Model of `jwt.sign(payload, secret, { expiresIn })` at time `now`. -/
def jwtSign (payload : JwtPayload) (secret : String)
    (expiresInSeconds now : Nat) : Token :=
  { payload := payload, iat := now, exp := now + expiresInSeconds,
    secret := secret }

/-- Model of `jwt.verify(token, secret)` at time `now`: the signature
must check out and the expiry must not have been reached. -/
def jwtVerify (t : Token) (secret : String) (now : Nat) : Option JwtPayload :=
  if t.secret == secret && now < t.exp then some t.payload else none

/-- A persisted `User` document (`userSchema`).  After a save the
`password` field holds the bcrypt digest. -/
structure UserDoc where
  _id : String
  name : String
  email : String
  password : String
  employeeNumber : String
  department : String
  workLocation : String
  role : String
  approvalStatus : String
deriving Repr, DecidableEq

/-- A persisted `Complaint` document (`complaintSchema`).
`employeeNumber` has no `required` flag, so the field may be absent. -/
structure ComplaintDoc where
  _id : String
  employeeId : String
  employeeName : String
  employeeEmail : String
  employeeNumber : Option String
  department : String
  category : String
  priority : String
  message : String
  status : String
  adminReply : String
deriving Repr, DecidableEq

/-- The document store: the `users` and `complaints` collections. -/
structure Store where
  users : List UserDoc
  complaints : List ComplaintDoc
deriving Repr, DecidableEq

/-- `User.findOne({ employeeNumber })`. -/
def findUserByEmployeeNumber (s : Store) (n : String) : Option UserDoc :=
  s.users.find? (fun u => u.employeeNumber == n)

/-- `User.findById(id)`. -/
def findUserById (s : Store) (id : String) : Option UserDoc :=
  s.users.find? (fun u => u._id == id)

/-- `Complaint.findById(id)`. -/
def findComplaintById (s : Store) (id : String) : Option ComplaintDoc :=
  s.complaints.find? (fun c => c._id == id)

/-- `userSchema.methods.comparePassword`. -/
def comparePassword (u : UserDoc) (candidatePassword : String) : Bool :=
  bcryptCompare candidatePassword u.password

/-- `expiresIn: '7d'` in seconds. -/
def sevenDays : Nat := 7 * 24 * 60 * 60

/-- `expiresIn: '24h'` in seconds. -/
def twentyFourHours : Nat := 24 * 60 * 60

/-- `userSchema.methods.generateAuthToken`: signs `{_id, email, role}`
with a 7-day expiry. -/
def generateAuthToken (u : UserDoc) (secret : String) (now : Nat) : Token :=
  jwtSign { _id := u._id, email := u.email, role := u.role } secret
    sevenDays now

/-- `userSchema.statics.generateAdminToken`: signs
`{_id: adminUser._id, email: adminUser.email, role: 'admin'}` with a
24-hour expiry. -/
def generateAdminToken (adminId adminEmail : String) (secret : String)
    (now : Nat) : Token :=
  jwtSign { _id := adminId, email := adminEmail, role := "admin" } secret
    twentyFourHours now

/-- A user document as returned under `.select('-password')`: every
schema field except `password`. -/
structure UserSafe where
  _id : String
  name : String
  email : String
  employeeNumber : String
  department : String
  workLocation : String
  role : String
  approvalStatus : String
deriving Repr, DecidableEq

/-- The `.select('-password')` projection. -/
def selectMinusPassword (u : UserDoc) : UserSafe :=
  { _id := u._id, name := u.name, email := u.email,
    employeeNumber := u.employeeNumber, department := u.department,
    workLocation := u.workLocation, role := u.role,
    approvalStatus := u.approvalStatus }

/-- The `user` object of the login 200 response: the field list written
out in the login handler (`_id, name, email, role, department,
workLocation, employeeNumber, approvalStatus`). -/
def loginUserView (u : UserDoc) : UserSafe :=
  { _id := u._id, name := u.name, email := u.email, role := u.role,
    department := u.department, workLocation := u.workLocation,
    employeeNumber := u.employeeNumber,
    approvalStatus := u.approvalStatus }

/-- JSON response bodies of the routes under study, one constructor
per response shape occurring in the source. -/
inductive Body where
  /-- `{success, message}` envelope. -/
  | message (success : Bool) (message : String)
  /-- Register 201: `{success, message, user: {_id, name, employeeNumber}}`. -/
  | registerOk (success : Bool) (message : String)
      (uid uname uemployeeNumber : String)
  /-- Login 200: `{success, token, user}`. -/
  | loginOk (success : Bool) (token : Token) (user : UserSafe)
  /-- Admin login 200: `{success, token, user: {role, username}}`. -/
  | adminLoginOk (success : Bool) (token : Token) (username : String)
  /-- `{success, users}` with the `-password` projection. -/
  | usersList (success : Bool) (users : List UserSafe)
  /-- `GET /api/complaints` 200: the bare complaint array. -/
  | complaintsBare (complaints : List ComplaintDoc)
  /-- `{success, complaint}`. -/
  | complaintOk (success : Bool) (complaint : ComplaintDoc)
  /-- `{success, complaints}`. -/
  | complaintsList (success : Bool) (complaints : List ComplaintDoc)
  /-- `{success, user}` with the full user document (approval route). -/
  | userOk (success : Bool) (user : UserDoc)
deriving Repr, DecidableEq

/-- Does a response body carry a session token? -/
def Body.hasToken : Body → Bool
  | .loginOk .. => true
  | .adminLoginOk .. => true
  | _ => false

/-- An HTTP response: status code and JSON body. -/
structure Resp where
  status : Nat
  body : Body
deriving Repr, DecidableEq

/-- Result of `authMiddleware`: either the request proceeds with
`req.user` set (the resolved account minus `password`), or the
middleware already answered. -/
inductive AuthResult where
  | ok (user : UserSafe)
  | fail (resp : Resp)
deriving Repr, DecidableEq

/-- `authMiddleware` (Employee Gate): requires a token, verifies it,
re-resolves the subject against the users collection, and re-checks
`approvalStatus === 'approved'` on every call. -/
def authMiddleware (s : Store) (auth : Option Token) (secret : String)
    (now : Nat) : AuthResult :=
  match auth with
  | none => .fail ⟨401, .message false "Authentication required"⟩
  | some t =>
    match jwtVerify t secret now with
    | none => .fail ⟨401, .message false "Invalid or expired token"⟩
    | some decoded =>
      match findUserById s decoded._id with
      | none => .fail ⟨401, .message false "User not found"⟩
      | some user =>
        if user.approvalStatus ≠ "approved" then
          .fail ⟨403, .message false "Account not approved"⟩
        else
          .ok (selectMinusPassword user)

/-- `adminMiddleware` (Admin Gate): requires a token whose decoded
`role` claim is `'admin'`; does not consult the store.  Returns
`some resp` when the gate answers, `none` when the request proceeds. -/
def adminMiddleware (auth : Option Token) (secret : String) (now : Nat) :
    Option Resp :=
  match auth with
  | none => some ⟨401, .message false "Authentication required"⟩
  | some t =>
    match jwtVerify t secret now with
    | none => some ⟨401, .message false "Invalid or expired token"⟩
    | some decoded =>
      if decoded.role ≠ "admin" then
        some ⟨403, .message false "Admin access required"⟩
      else
        none

/-- Body of `POST /api/auth/register`. -/
structure RegisterReq where
  name : Option String
  email : Option String
  password : Option String
  employeeNumber : Option String
  department : Option String
  workLocation : Option String
deriving Repr, DecidableEq

/-- `/^[0-9]{10}$/.test(s)`. -/
def isTenDigits (s : String) : Bool :=
  s.length == 10 && s.toList.all Char.isDigit

/-- `User.create(...)` for registration: the unique indexes on `email`
and `employeeNumber` reject a duplicate (the route's catch turns that
into a 500); on success the pre-save hook has hashed the password and
the `role` default `'employee'` applies. -/
def userCreate (s : Store) (newId name email password employeeNumber
    department workLocation approvalStatus : String) :
    Option (UserDoc × Store) :=
  if s.users.any (fun u => u.email == email) ||
      s.users.any (fun u => u.employeeNumber == employeeNumber) then
    none
  else
    let u : UserDoc :=
      { _id := newId, name := name, email := email,
        password := bcryptHash password,
        employeeNumber := employeeNumber, department := department,
        workLocation := workLocation, role := "employee",
        approvalStatus := approvalStatus }
    some (u, { s with users := s.users ++ [u] })

/-- `email || employeeNumber + '@complaintbox.local'`: the unique
email generated from the phone number when none is supplied. -/
def generatedEmail (r : RegisterReq) : String :=
  if truthy r.email then r.email.getD ""
  else r.employeeNumber.getD "" ++ "@complaintbox.local"

/-- `POST /api/auth/register`.  `newId` stands for the ObjectId the
store generates for the inserted document. -/
def postAuthRegister (s : Store) (r : RegisterReq) (newId : String) :
    Resp × Store :=
  if ¬(truthy r.name && truthy r.password && truthy r.employeeNumber &&
      truthy r.department && truthy r.workLocation) then
    (⟨400, .message false "All fields are required"⟩, s)
  else if ¬isTenDigits (r.employeeNumber.getD "") then
    (⟨400, .message false "Phone number must be exactly 10 digits"⟩, s)
  else if (r.password.getD "").length < 6 then
    (⟨400, .message false "Password must be at least 6 characters"⟩, s)
  else if (findUserByEmployeeNumber s (r.employeeNumber.getD "")).isSome then
    (⟨400, .message false "Phone number already registered"⟩, s)
  else
    match userCreate s newId (r.name.getD "") (generatedEmail r)
        (r.password.getD "") (r.employeeNumber.getD "")
        (r.department.getD "") (r.workLocation.getD "") "pending" with
    | none => (⟨500, .message false "Server error occurred"⟩, s)
    | some (u, s') =>
      (⟨201, .registerOk true "Registration successful! Wait for admin approval."
          u._id u.name u.employeeNumber⟩, s')

/-- Body of `POST /api/auth/login` (the frontend sends the phone number
in the `email` field). -/
structure LoginReq where
  email : Option String
  password : Option String
deriving Repr, DecidableEq

/-- `POST /api/auth/login`. -/
def postAuthLogin (s : Store) (r : LoginReq) (secret : String)
    (now : Nat) : Resp :=
  let phoneNumber := r.email
  if ¬(truthy phoneNumber && truthy r.password) then
    ⟨400, .message false "Phone number and password required"⟩
  else
    match findUserByEmployeeNumber s (phoneNumber.getD "") with
    | none => ⟨401, .message false "Invalid credentials"⟩
    | some user =>
      if ¬comparePassword user (r.password.getD "") then
        ⟨401, .message false "Invalid credentials"⟩
      else if user.approvalStatus == "pending" then
        ⟨403, .message false "Account pending approval"⟩
      else if user.approvalStatus == "rejected" then
        ⟨403, .message false "Account rejected. Contact HR."⟩
      else
        ⟨200, .loginOk true (generateAuthToken user secret now)
          (loginUserView user)⟩

/-- `POST /api/auth/admin/login` against the cached `ADMIN_USERNAME` /
`ADMIN_PASSWORD` configuration values. -/
def postAuthAdminLogin (adminUsername adminPassword : String)
    (username password : Option String) (secret : String) (now : Nat) :
    Resp :=
  if ¬(truthy username && truthy password) then
    ⟨400, .message false "Username and password required"⟩
  else if username.getD "" ≠ adminUsername ∨
      password.getD "" ≠ adminPassword then
    ⟨401, .message false "Invalid admin credentials"⟩
  else
    ⟨200, .adminLoginOk true
      (generateAdminToken "admin" "admin@system.com" secret now)
      adminUsername⟩

/-- `GET /api/complaints` (employee-gated): the full complaint set
(sorted by creation time in the source; the sort is a permutation and
is left out of the model). -/
def getComplaints (s : Store) (auth : Option Token) (secret : String)
    (now : Nat) : Resp :=
  match authMiddleware s auth secret now with
  | .fail resp => resp
  | .ok _ => ⟨200, .complaintsBare s.complaints⟩

/-- Body of `POST /api/complaints`: the handler passes `req.body`
straight to `Complaint.create`, so the client controls every schema
field. -/
structure ComplaintReq where
  employeeId : Option String
  employeeName : Option String
  employeeEmail : Option String
  employeeNumber : Option String
  department : Option String
  category : Option String
  priority : Option String
  message : Option String
  status : Option String
  adminReply : Option String
deriving Repr, DecidableEq

/-- An optional field satisfies an enum constraint when it is absent
(the default applies) or its value is one of the allowed literals. -/
def enumOk (allowed : List String) : Option String → Bool
  | none => true
  | some v => allowed.contains v

/-- `Array.prototype.includes` applied to a possibly-undefined body
field (`includes(undefined)` is false). -/
def includesOpt (allowed : List String) : Option String → Bool
  | none => false
  | some v => allowed.contains v

/-- The document `Complaint.create(req.body)` builds when validation
passes: every field is taken from the request body; `priority`,
`status` and `adminReply` fall back to their schema defaults when the
body omits them. -/
def complaintFromBody (r : ComplaintReq) (newId : String) : ComplaintDoc :=
  { _id := newId, employeeId := r.employeeId.getD "",
    employeeName := r.employeeName.getD "",
    employeeEmail := r.employeeEmail.getD "",
    employeeNumber := r.employeeNumber,
    department := r.department.getD "",
    category := r.category.getD "",
    priority := r.priority.getD "medium",
    message := r.message.getD "",
    status := r.status.getD "pending",
    adminReply := r.adminReply.getD "" }

/-- `Complaint.create(req.body)`: schema validation — `required`
string paths need a non-empty value, `priority` and `status` must lie
in their enums when supplied and default to `'medium'` / `'pending'`
when absent, `adminReply` defaults to `''`.  `none` models the thrown
`ValidationError`. -/
def complaintCreate (r : ComplaintReq) (newId : String) :
    Option ComplaintDoc :=
  if ¬(truthy r.employeeId && truthy r.employeeName &&
      truthy r.employeeEmail && truthy r.department &&
      truthy r.category && truthy r.message) then
    none
  else if ¬enumOk ["low", "medium", "high"] r.priority then
    none
  else if ¬enumOk ["pending", "received", "resolved"] r.status then
    none
  else
    some (complaintFromBody r newId)

/-- `POST /api/complaints` (employee-gated): `Complaint.create(req.body)`;
a schema validation failure is caught and answered with 500. -/
def postComplaints (s : Store) (auth : Option Token) (secret : String)
    (now : Nat) (r : ComplaintReq) (newId : String) : Resp × Store :=
  match authMiddleware s auth secret now with
  | .fail resp => (resp, s)
  | .ok _ =>
    match complaintCreate r newId with
    | none => (⟨500, .message false "Server error occurred"⟩, s)
    | some c =>
      (⟨201, .complaintOk true c⟩,
       { s with complaints := s.complaints ++ [c] })

/-- `GET /api/admin/users` (admin-gated): all users under
`.select('-password')`. -/
def getAdminUsers (s : Store) (auth : Option Token) (secret : String)
    (now : Nat) : Resp :=
  match adminMiddleware auth secret now with
  | some resp => resp
  | none => ⟨200, .usersList true (s.users.map selectMinusPassword)⟩

/-- `User.findByIdAndUpdate(id, { approvalStatus }, { new: true })`:
update the matching document in place and return the updated copy;
no match leaves the collection untouched. -/
def findUserByIdAndUpdateApproval (s : Store) (id approvalStatus : String) :
    Option UserDoc × Store :=
  match findUserById s id with
  | none => (none, s)
  | some u =>
    let u' := { u with approvalStatus := approvalStatus }
    (some u',
     { s with users :=
        s.users.map (fun v => if v._id == id then { v with approvalStatus := approvalStatus } else v) })

/-- `PATCH /api/admin/users/:id/approval` (admin-gated). -/
def patchAdminUserApproval (s : Store) (auth : Option Token)
    (secret : String) (now : Nat) (id : String)
    (approvalStatus : Option String) : Resp × Store :=
  match adminMiddleware auth secret now with
  | some resp => (resp, s)
  | none =>
    if ¬includesOpt ["approved", "rejected", "pending"] approvalStatus then
      (⟨400, .message false "Invalid approval status"⟩, s)
    else
      match findUserByIdAndUpdateApproval s id (approvalStatus.getD "") with
      | (none, s') => (⟨404, .message false "User not found"⟩, s')
      | (some user, s') => (⟨200, .userOk true user⟩, s')

/-- `DELETE /api/admin/users/:id` (admin-gated):
`User.findByIdAndDelete` then `Complaint.deleteMany({ employeeId })`. -/
def deleteAdminUser (s : Store) (auth : Option Token) (secret : String)
    (now : Nat) (id : String) : Resp × Store :=
  match adminMiddleware auth secret now with
  | some resp => (resp, s)
  | none =>
    match findUserById s id with
    | none => (⟨404, .message false "User not found"⟩, s)
    | some _ =>
      (⟨200, .message true "User and associated complaints deleted successfully"⟩,
       { users := s.users.eraseP (fun u => u._id == id),
         complaints := s.complaints.filter (fun c => ¬(c.employeeId == id)) })

/-- `Complaint.findByIdAndUpdate(id, { status }, { new: true })`. -/
def findComplaintByIdAndUpdateStatus (s : Store) (id status : String) :
    Option ComplaintDoc × Store :=
  match findComplaintById s id with
  | none => (none, s)
  | some c =>
    (some { c with status := status },
     { s with complaints :=
        s.complaints.map (fun d => if d._id == id then { d with status := status } else d) })

/-- `PATCH /api/admin/complaints/:id/status` (admin-gated). -/
def patchAdminComplaintStatus (s : Store) (auth : Option Token)
    (secret : String) (now : Nat) (id : String)
    (status : Option String) : Resp × Store :=
  match adminMiddleware auth secret now with
  | some resp => (resp, s)
  | none =>
    if ¬includesOpt ["pending", "received", "resolved"] status then
      (⟨400, .message false "Invalid status"⟩, s)
    else
      match findComplaintByIdAndUpdateStatus s id (status.getD "") with
      | (none, s') => (⟨404, .message false "Complaint not found"⟩, s')
      | (some complaint, s') => (⟨200, .complaintOk true complaint⟩, s')

/-! ## Concrete data for witnesses and counterexamples -/

/-- Signing secret used by the concrete scenarios. -/
def sampleSecret : String := "sample-jwt-secret"

/-- An approved employee account. -/
def sampleUser : UserDoc :=
  { _id := "u1", name := "Alice", email := "u1@example.com",
    password := bcryptHash "secret1", employeeNumber := "9876543210",
    department := "HR", workLocation := "Kochi", role := "employee",
    approvalStatus := "approved" }

/-- A second approved employee account. -/
def sampleUser2 : UserDoc :=
  { sampleUser with
    _id := "u2", name := "Bob", email := "u2@example.com",
    employeeNumber := "1234567890" }

/-- A store holding the two sample accounts and one complaint owned by
each. -/
def sampleStore : Store :=
  { users := [sampleUser, sampleUser2],
    complaints :=
      [{ _id := "c1", employeeId := "u1", employeeName := "Alice",
         employeeEmail := "u1@example.com",
         employeeNumber := some "9876543210", department := "HR",
         category := "PF", priority := "medium", message := "m1",
         status := "pending", adminReply := "" },
       { _id := "c2", employeeId := "u2", employeeName := "Bob",
         employeeEmail := "u2@example.com",
         employeeNumber := some "1234567890", department := "HR",
         category := "Leave", priority := "low", message := "m2",
         status := "received", adminReply := "" }] }

/-- A token issued to `sampleUser` at time 0. -/
def sampleEmployeeToken : Token := generateAuthToken sampleUser sampleSecret 0

/-- An admin token issued at time 0 (as by the admin login route). -/
def sampleAdminToken : Token :=
  generateAdminToken "admin" "admin@system.com" sampleSecret 0

/-- A complaint body naming `sampleUser2` as owner and a non-default
status, submitted over `sampleUser`'s session. -/
def forgedComplaintReq : ComplaintReq :=
  { employeeId := some "u2", employeeName := some "Bob",
    employeeEmail := some "u2@example.com",
    employeeNumber := some "1234567890", department := some "HR",
    category := some "PF", priority := some "high",
    message := some "forged", status := some "resolved",
    adminReply := none }

/-- The same complaint body with `category` absent. -/
def missingCategoryReq : ComplaintReq :=
  { forgedComplaintReq with category := none }

/-! ## Claims -/

/-- The single-user approval update performed by the admin route,
as applied to each stored document. -/
def updApproval (id newStatus : String) : UserDoc → UserDoc :=
  fun v => if v._id == id then { v with approvalStatus := newStatus } else v

/-- C1: once the admin approval operation moves an account away from
`approved`, the very next employee-gated request carrying the same
still-unexpired token is rejected with 403, because `authMiddleware`
re-resolves the token subject against the users collection and
re-checks `approvalStatus` on every request. -/
theorem approval_change_rejects_next_request
    (s : Store) (u : UserDoc) (t adminTok : Token) (secret : String)
    (now₁ now₂ : Nat) (newStatus : String)
    (hu : findUserById s u._id = some u)
    (hts : t.secret = secret) (hsub : t.payload._id = u._id)
    (htexp : now₂ < t.exp)
    (has : adminTok.secret = secret) (haexp : now₁ < adminTok.exp)
    (harole : adminTok.payload.role = "admin")
    (hnew : newStatus ∈ ["approved", "rejected", "pending"])
    (hne : newStatus ≠ "approved") :
    (patchAdminUserApproval s (some adminTok) secret now₁ u._id
        (some newStatus)).1.status = 200 ∧
    getComplaints
        (patchAdminUserApproval s (some adminTok) secret now₁ u._id
          (some newStatus)).2
        (some t) secret now₂
      = ⟨403, .message false "Account not approved"⟩ := by
  have hgate : adminMiddleware (some adminTok) secret now₁ = none := by
    simp [adminMiddleware, jwtVerify, has, haexp, harole]
  have hinc : includesOpt ["approved", "rejected", "pending"]
      (some newStatus) = true := by
    simpa [includesOpt] using hnew
  have hpatch : patchAdminUserApproval s (some adminTok) secret now₁ u._id
      (some newStatus)
      = (⟨200, .userOk true { u with approvalStatus := newStatus }⟩,
         { s with users := s.users.map (updApproval u._id newStatus) }) := by
    simp [patchAdminUserApproval, hgate, hinc, findUserByIdAndUpdateApproval,
      hu, updApproval]
  refine ⟨by rw [hpatch], ?_⟩
  rw [hpatch]
  have hfind : findUserById
      { s with users := s.users.map (updApproval u._id newStatus) } u._id
      = some { u with approvalStatus := newStatus } := by
    unfold findUserById at hu ⊢
    rw [List.find?_map]
    have hq : ((fun v : UserDoc => v._id == u._id) ∘ updApproval u._id newStatus)
        = fun v : UserDoc => v._id == u._id := by
      funext v
      by_cases h : v._id == u._id <;> simp [updApproval, h]
    rw [hq, hu]
    simp [updApproval]
  simp [getComplaints, authMiddleware, jwtVerify, hts, htexp, hsub, hfind, hne]

/-- C1 witness: concrete instantiation — admin rejects `sampleUser`
at time 5; the user's 7-day token from time 0 is refused at time 10. -/
theorem approval_change_rejects_next_request_witness :
    (patchAdminUserApproval sampleStore (some sampleAdminToken) sampleSecret 5
        sampleUser._id (some "rejected")).1.status = 200 ∧
    getComplaints
        (patchAdminUserApproval sampleStore (some sampleAdminToken)
          sampleSecret 5 sampleUser._id (some "rejected")).2
        (some sampleEmployeeToken) sampleSecret 10
      = ⟨403, .message false "Account not approved"⟩ :=
  approval_change_rejects_next_request sampleStore sampleUser
    sampleEmployeeToken sampleAdminToken sampleSecret 5 10 "rejected"
    (by decide) rfl rfl (by decide) rfl (by decide) rfl (by decide) (by decide)


/-- C3: a login with an existing identifier but wrong password and a
login with a nonexistent identifier return the identical response —
status 401 and the same `Invalid credentials` body — so the two
failure causes are indistinguishable to the caller. -/
theorem login_enumeration_resistance
    (s : Store) (r₁ r₂ : LoginReq) (u : UserDoc) (secret : String) (now : Nat)
    (h1e : truthy r₁.email = true) (h1p : truthy r₁.password = true)
    (h2e : truthy r₂.email = true) (h2p : truthy r₂.password = true)
    (hu : findUserByEmployeeNumber s (r₁.email.getD "") = some u)
    (hwrong : comparePassword u (r₁.password.getD "") = false)
    (hnone : findUserByEmployeeNumber s (r₂.email.getD "") = none) :
    postAuthLogin s r₁ secret now = postAuthLogin s r₂ secret now ∧
    postAuthLogin s r₁ secret now
      = ⟨401, .message false "Invalid credentials"⟩ := by
  simp [postAuthLogin, h1e, h1p, h2e, h2p, hu, hnone, hwrong]

/-- C3 witness: wrong password for registered phone `9876543210`
versus unregistered phone `0000000000`. -/
theorem login_enumeration_resistance_witness :
    postAuthLogin sampleStore { email := some "9876543210", password := some "wrong" }
        sampleSecret 0
      = postAuthLogin sampleStore { email := some "0000000000", password := some "whatever" }
        sampleSecret 0 ∧
    postAuthLogin sampleStore { email := some "9876543210", password := some "wrong" }
        sampleSecret 0
      = ⟨401, .message false "Invalid credentials"⟩ :=
  login_enumeration_resistance sampleStore
    { email := some "9876543210", password := some "wrong" }
    { email := some "0000000000", password := some "whatever" }
    sampleUser sampleSecret 0 (by decide) (by decide) (by decide) (by decide)
    (by decide) (by decide) (by decide)

/-- C4: for an account whose `approvalStatus` is `pending` or
`rejected`, login answers 403 whenever the supplied password matches,
and no response to any login attempt for it carries a token. -/
theorem pending_or_rejected_login_fails
    (s : Store) (r : LoginReq) (u : UserDoc) (secret : String) (now : Nat)
    (he : truthy r.email = true) (hp : truthy r.password = true)
    (hu : findUserByEmployeeNumber s (r.email.getD "") = some u)
    (hst : u.approvalStatus = "pending" ∨ u.approvalStatus = "rejected") :
    (comparePassword u (r.password.getD "") = true →
      (postAuthLogin s r secret now).status = 403) ∧
    (postAuthLogin s r secret now).body.hasToken = false := by
  cases hcp : comparePassword u (r.password.getD "") <;>
    rcases hst with h | h <;>
      simp [postAuthLogin, he, hp, hu, hcp, h, Body.hasToken]

/-- C4 witness: correct password `secret1` against the pending copy
of `sampleUser`. -/
theorem pending_or_rejected_login_fails_witness :
    (comparePassword { sampleUser with approvalStatus := "pending" } "secret1" = true →
      (postAuthLogin
        { sampleStore with users := [{ sampleUser with approvalStatus := "pending" }] }
        { email := some "9876543210", password := some "secret1" }
        sampleSecret 0).status = 403) ∧
    (postAuthLogin
        { sampleStore with users := [{ sampleUser with approvalStatus := "pending" }] }
        { email := some "9876543210", password := some "secret1" }
        sampleSecret 0).body.hasToken = false :=
  pending_or_rejected_login_fails
    { sampleStore with users := [{ sampleUser with approvalStatus := "pending" }] }
    { email := some "9876543210", password := some "secret1" }
    { sampleUser with approvalStatus := "pending" } sampleSecret 0
    (by decide) (by decide) (by decide) (Or.inl rfl)

/-- C2 counterexample: over `sampleUser`'s session (subject `u1`), a
body naming `u2` as owner with status `resolved` is created verbatim
(201), and a body missing `category` is answered with 500, not 400 —
the handler passes `req.body` to the store unmodified. -/
theorem complaint_create_client_controlled_cx :
    sampleEmployeeToken.payload._id = "u1" ∧
    (postComplaints sampleStore (some sampleEmployeeToken) sampleSecret 10
        forgedComplaintReq "c3").1.status = 201 ∧
    ((postComplaints sampleStore (some sampleEmployeeToken) sampleSecret 10
        forgedComplaintReq "c3").2.complaints.map
        (fun c => (c._id, c.employeeId, c.status)))
      = [("c1", "u1", "pending"), ("c2", "u2", "received"),
         ("c3", "u2", "resolved")] ∧
    (postComplaints sampleStore (some sampleEmployeeToken) sampleSecret 10
        missingCategoryReq "c3").1
      = ⟨500, .message false "Server error occurred"⟩ := by
  decide

/-- C2 (amended): complaint creation forwards the request body to the
store unchanged — the created complaint's owner (`employeeId`) and
display fields are the client-supplied body fields, its status is the
body's `status` (defaulting to `pending` only when the body omits it),
and a body missing `category` or `message` fails schema validation,
which the handler reports as 500, not 400. -/
theorem complaint_create_passes_body_through
    (s : Store) (t : Token) (secret : String) (now : Nat)
    (r : ComplaintReq) (newId : String) (v : UserSafe)
    (hgate : authMiddleware s (some t) secret now = .ok v) :
    ((truthy r.employeeId && truthy r.employeeName &&
        truthy r.employeeEmail && truthy r.department &&
        truthy r.category && truthy r.message) = true →
      enumOk ["low", "medium", "high"] r.priority = true →
      enumOk ["pending", "received", "resolved"] r.status = true →
      postComplaints s (some t) secret now r newId
        = (⟨201, .complaintOk true (complaintFromBody r newId)⟩,
           { s with complaints := s.complaints ++ [complaintFromBody r newId] })) ∧
    (complaintFromBody r newId).employeeId = r.employeeId.getD "" ∧
    (complaintFromBody r newId).status = r.status.getD "pending" ∧
    ((truthy r.category = false ∨ truthy r.message = false) →
      postComplaints s (some t) secret now r newId
        = (⟨500, .message false "Server error occurred"⟩, s)) := by
  refine ⟨?_, rfl, rfl, ?_⟩
  · intro hreq hprio hstat
    simp [postComplaints, hgate, complaintCreate, hreq, hprio, hstat]
  · intro hmiss
    have hreq : (truthy r.employeeId && truthy r.employeeName &&
        truthy r.employeeEmail && truthy r.department &&
        truthy r.category && truthy r.message) = false := by
      rcases hmiss with h | h <;> simp [h]
    simp [postComplaints, hgate, complaintCreate, hreq]

/-- C2 witness for the amended theorem: a fully-populated body over
`sampleUser`'s session is stored verbatim, and the `category`-less
body is answered with 500. -/
theorem complaint_create_passes_body_through_witness :
    ((truthy forgedComplaintReq.employeeId && truthy forgedComplaintReq.employeeName &&
        truthy forgedComplaintReq.employeeEmail && truthy forgedComplaintReq.department &&
        truthy forgedComplaintReq.category && truthy forgedComplaintReq.message) = true →
      enumOk ["low", "medium", "high"] forgedComplaintReq.priority = true →
      enumOk ["pending", "received", "resolved"] forgedComplaintReq.status = true →
      postComplaints sampleStore (some sampleEmployeeToken) sampleSecret 10
          forgedComplaintReq "c3"
        = (⟨201, .complaintOk true (complaintFromBody forgedComplaintReq "c3")⟩,
           { sampleStore with complaints :=
              sampleStore.complaints ++ [complaintFromBody forgedComplaintReq "c3"] })) ∧
    (complaintFromBody forgedComplaintReq "c3").employeeId
      = forgedComplaintReq.employeeId.getD "" ∧
    (complaintFromBody forgedComplaintReq "c3").status
      = forgedComplaintReq.status.getD "pending" ∧
    ((truthy forgedComplaintReq.category = false ∨
        truthy forgedComplaintReq.message = false) →
      postComplaints sampleStore (some sampleEmployeeToken) sampleSecret 10
          forgedComplaintReq "c3"
        = (⟨500, .message false "Server error occurred"⟩, sampleStore)) :=
  complaint_create_passes_body_through sampleStore sampleEmployeeToken
    sampleSecret 10 forgedComplaintReq "c3"
    (selectMinusPassword sampleUser) (by decide)

/-- The single-complaint status update performed by the admin route,
as applied to each stored document. -/
def updStatus (id stv : String) : ComplaintDoc → ComplaintDoc :=
  fun d => if d._id == id then { d with status := stv } else d

/-- C7: with a valid admin session, `setStatus` accepts each of
`pending`, `received`, `resolved` as the new status of any stored
complaint whatever its current status (all six directed transitions),
rejects any other literal with 400 `Invalid status`, and answers 404
`Complaint not found` when the id does not resolve. -/
theorem set_status_transitions
    (s : Store) (adminTok : Token) (secret : String) (now : Nat) (id : String)
    (hgate : adminMiddleware (some adminTok) secret now = none) :
    (∀ stv c, stv ∈ ["pending", "received", "resolved"] →
      findComplaintById s id = some c →
      patchAdminComplaintStatus s (some adminTok) secret now id (some stv)
        = (⟨200, .complaintOk true { c with status := stv }⟩,
           { s with complaints := s.complaints.map (updStatus id stv) })) ∧
    (∀ stv, stv ∉ ["pending", "received", "resolved"] →
      patchAdminComplaintStatus s (some adminTok) secret now id (some stv)
        = (⟨400, .message false "Invalid status"⟩, s)) ∧
    (∀ stv, stv ∈ ["pending", "received", "resolved"] →
      findComplaintById s id = none →
      patchAdminComplaintStatus s (some adminTok) secret now id (some stv)
        = (⟨404, .message false "Complaint not found"⟩, s)) := by
  refine ⟨?_, ?_, ?_⟩
  · intro stv c hmem hfind
    have hinc : includesOpt ["pending", "received", "resolved"] (some stv) = true := by
      simpa [includesOpt] using hmem
    simp [patchAdminComplaintStatus, hgate, hinc,
      findComplaintByIdAndUpdateStatus, hfind, updStatus]
  · intro stv hmem
    have hinc : includesOpt ["pending", "received", "resolved"] (some stv) = false := by
      simpa [includesOpt] using hmem
    simp [patchAdminComplaintStatus, hgate, hinc]
  · intro stv hmem hfind
    have hinc : includesOpt ["pending", "received", "resolved"] (some stv) = true := by
      simpa [includesOpt] using hmem
    simp [patchAdminComplaintStatus, hgate, hinc,
      findComplaintByIdAndUpdateStatus, hfind]

/-- C7 witness: with `sampleAdminToken`, complaint `c2` (currently
`received`) moves back to `pending`, the literal `bogus` is rejected
with 400, and the unknown id `c9` (with a valid literal) gives 404. -/
theorem set_status_transitions_witness :
    patchAdminComplaintStatus sampleStore (some sampleAdminToken) sampleSecret
        10 "c2" (some "pending")
      = (⟨200, .complaintOk true
            { _id := "c2", employeeId := "u2", employeeName := "Bob",
              employeeEmail := "u2@example.com",
              employeeNumber := some "1234567890", department := "HR",
              category := "Leave", priority := "low", message := "m2",
              status := "pending", adminReply := "" }⟩,
         { sampleStore with complaints :=
            sampleStore.complaints.map (updStatus "c2" "pending") }) ∧
    patchAdminComplaintStatus sampleStore (some sampleAdminToken) sampleSecret
        10 "c2" (some "bogus")
      = (⟨400, .message false "Invalid status"⟩, sampleStore) ∧
    patchAdminComplaintStatus sampleStore (some sampleAdminToken) sampleSecret
        10 "c9" (some "resolved")
      = (⟨404, .message false "Complaint not found"⟩, sampleStore) := by
  have h := set_status_transitions sampleStore sampleAdminToken sampleSecret
    10 "c2" (by decide)
  have h9 := set_status_transitions sampleStore sampleAdminToken sampleSecret
    10 "c9" (by decide)
  refine ⟨?_, h.2.1 "bogus" (by decide), h9.2.2 "resolved" (by decide) (by decide)⟩
  have := h.1 "pending"
    { _id := "c2", employeeId := "u2", employeeName := "Bob",
      employeeEmail := "u2@example.com",
      employeeNumber := some "1234567890", department := "HR",
      category := "Leave", priority := "low", message := "m2",
      status := "received", adminReply := "" }
    (by decide) (by decide)
  simpa using this

/-- `findUserByIdAndUpdateApproval` leaves the store unchanged when no
document matches. -/
theorem findUserByIdAndUpdateApproval_none_frame (s : Store) (id a : String) :
    (findUserByIdAndUpdateApproval s id a).1 = none →
    (findUserByIdAndUpdateApproval s id a).2 = s := by
  unfold findUserByIdAndUpdateApproval
  cases h : findUserById s id <;> simp

/-- `findComplaintByIdAndUpdateStatus` leaves the store unchanged when
no document matches. -/
theorem findComplaintByIdAndUpdateStatus_none_frame (s : Store) (id a : String) :
    (findComplaintByIdAndUpdateStatus s id a).1 = none →
    (findComplaintByIdAndUpdateStatus s id a).2 = s := by
  unfold findComplaintByIdAndUpdateStatus
  cases h : findComplaintById s id <;> simp

/-- C10: whenever the admin complaint-status update or the admin
approval update answers 400 (bad literal) or 404 (unresolved id), the
store is left exactly as it was: the validity check precedes any
write, and a missed lookup writes nothing. -/
theorem failed_admin_update_leaves_store_unchanged
    (s : Store) (auth : Option Token) (secret : String) (now : Nat)
    (id : String) (st apr : Option String) :
    ((patchAdminComplaintStatus s auth secret now id st).1.status = 400 ∨
      (patchAdminComplaintStatus s auth secret now id st).1.status = 404 →
      (patchAdminComplaintStatus s auth secret now id st).2 = s) ∧
    ((patchAdminUserApproval s auth secret now id apr).1.status = 400 ∨
      (patchAdminUserApproval s auth secret now id apr).1.status = 404 →
      (patchAdminUserApproval s auth secret now id apr).2 = s) := by
  constructor
  · unfold patchAdminComplaintStatus
    cases hg : adminMiddleware auth secret now with
    | some resp => intro _; simp
    | none =>
      by_cases hinc : includesOpt ["pending", "received", "resolved"] st = true
      · simp only [hinc, not_true, if_false, Bool.not_eq_true]
        cases hupd : findComplaintByIdAndUpdateStatus s id (st.getD "") with
        | mk fst snd =>
          cases fst with
          | none =>
            intro _
            have hfr := findComplaintByIdAndUpdateStatus_none_frame s id (st.getD "")
            rw [hupd] at hfr
            simpa using hfr rfl
          | some c => intro h; simp at h
      · simp [hinc]
  · unfold patchAdminUserApproval
    cases hg : adminMiddleware auth secret now with
    | some resp => intro _; simp
    | none =>
      by_cases hinc : includesOpt ["approved", "rejected", "pending"] apr = true
      · simp only [hinc, not_true, if_false, Bool.not_eq_true]
        cases hupd : findUserByIdAndUpdateApproval s id (apr.getD "") with
        | mk fst snd =>
          cases fst with
          | none =>
            intro _
            have hfr := findUserByIdAndUpdateApproval_none_frame s id (apr.getD "")
            rw [hupd] at hfr
            simpa using hfr rfl
          | some c => intro h; simp at h
      · simp [hinc]

/-- C10 witness: the literal `bogus` against complaint `c1` (400) and
a valid literal against the unknown user id `u9` (404) both leave
`sampleStore` unchanged. -/
theorem failed_admin_update_leaves_store_unchanged_witness :
    (patchAdminComplaintStatus sampleStore (some sampleAdminToken) sampleSecret
        10 "c1" (some "bogus")).2 = sampleStore ∧
    (patchAdminUserApproval sampleStore (some sampleAdminToken) sampleSecret
        10 "u9" (some "approved")).2 = sampleStore :=
  ⟨(failed_admin_update_leaves_store_unchanged sampleStore (some sampleAdminToken)
      sampleSecret 10 "c1" (some "bogus") (some "approved")).1 (Or.inl (by decide)),
   (failed_admin_update_leaves_store_unchanged sampleStore (some sampleAdminToken)
      sampleSecret 10 "u9" (some "bogus") (some "approved")).2 (Or.inr (by decide))⟩

/-- C8: an employee token is issued with a validity window of exactly
7 days from issuance; the admin login route issues a token with a
window of exactly 24 hours, subject the sentinel `admin` and role
claim `admin`; and verifying any token at or past its embedded expiry
fails. -/
theorem token_validity_windows
    (u : UserDoc) (secret adminUsername adminPassword : String)
    (username password : String) (now now₂ : Nat) (t : Token)
    (hun : username = adminUsername) (hpw : password = adminPassword)
    (hune : username ≠ "") (hpwe : password ≠ "")
    (hexp : t.exp ≤ now₂) :
    (generateAuthToken u secret now).iat = now ∧
    (generateAuthToken u secret now).exp = now + 7 * 24 * 60 * 60 ∧
    postAuthAdminLogin adminUsername adminPassword (some username)
        (some password) secret now
      = ⟨200, .adminLoginOk true
          (generateAdminToken "admin" "admin@system.com" secret now)
          adminUsername⟩ ∧
    (generateAdminToken "admin" "admin@system.com" secret now).iat = now ∧
    (generateAdminToken "admin" "admin@system.com" secret now).exp
      = now + 24 * 60 * 60 ∧
    (generateAdminToken "admin" "admin@system.com" secret now).payload._id
      = "admin" ∧
    (generateAdminToken "admin" "admin@system.com" secret now).payload.role
      = "admin" ∧
    jwtVerify t secret now₂ = none := by
  have hnl : ¬ now₂ < t.exp := Nat.not_lt.mpr hexp
  refine ⟨rfl, rfl, ?_, rfl, rfl, rfl, rfl, ?_⟩
  · simp [postAuthAdminLogin, truthy, hune, hpwe, hun, hpw]
    exact ⟨hun ▸ hune, hpw ▸ hpwe⟩
  · simp [jwtVerify, hnl]

/-- C8 witness: concrete admin login at time 0 and the employee token
checked at its expiry instant. -/
theorem token_validity_windows_witness :
    (generateAuthToken sampleUser sampleSecret 0).iat = 0 ∧
    (generateAuthToken sampleUser sampleSecret 0).exp = 0 + 7 * 24 * 60 * 60 ∧
    postAuthAdminLogin "hradmin" "hunter2!" (some "hradmin") (some "hunter2!")
        sampleSecret 0
      = ⟨200, .adminLoginOk true
          (generateAdminToken "admin" "admin@system.com" sampleSecret 0)
          "hradmin"⟩ ∧
    (generateAdminToken "admin" "admin@system.com" sampleSecret 0).iat = 0 ∧
    (generateAdminToken "admin" "admin@system.com" sampleSecret 0).exp
      = 0 + 24 * 60 * 60 ∧
    (generateAdminToken "admin" "admin@system.com" sampleSecret 0).payload._id
      = "admin" ∧
    (generateAdminToken "admin" "admin@system.com" sampleSecret 0).payload.role
      = "admin" ∧
    jwtVerify sampleEmployeeToken sampleSecret 604800 = none :=
  token_validity_windows sampleUser sampleSecret "hradmin" "hunter2!"
    "hradmin" "hunter2!" 0 604800 sampleEmployeeToken rfl rfl
    (by decide) (by decide) (by decide)

/-- The user document the register route inserts for a body `r` whose
`employeeNumber` is `phone`, under store-generated id `newId`: the
body fields, the generated email, the pre-save bcrypt digest, the
schema default role `employee`, and `approvalStatus := "pending"`. -/
def registeredUser (r : RegisterReq) (newId phone : String) : UserDoc :=
  { _id := newId, name := r.name.getD "", email := generatedEmail r,
    password := bcryptHash (r.password.getD ""),
    employeeNumber := phone, department := r.department.getD "",
    workLocation := r.workLocation.getD "", role := "employee",
    approvalStatus := "pending" }

/-- C5: registering an unused valid 10-digit identifier with otherwise
valid input answers 201 and inserts exactly one account, whose
`approvalStatus` is `pending`; a second registration with the same
identifier answers 400 (duplicate identity) and inserts nothing. -/
theorem register_pending_then_duplicate
    (s : Store) (r r₂ : RegisterReq) (newId newId₂ phone : String)
    (hname : truthy r.name = true) (hpw : truthy r.password = true)
    (hdept : truthy r.department = true) (hloc : truthy r.workLocation = true)
    (hphone : r.employeeNumber = some phone)
    (h10 : isTenDigits phone = true)
    (hlen : 6 ≤ (r.password.getD "").length)
    (hfresh : findUserByEmployeeNumber s phone = none)
    (hemail : ∀ v ∈ s.users, v.email ≠ generatedEmail r)
    (h2name : truthy r₂.name = true) (h2pw : truthy r₂.password = true)
    (h2dept : truthy r₂.department = true) (h2loc : truthy r₂.workLocation = true)
    (h2phone : r₂.employeeNumber = some phone)
    (h2len : 6 ≤ (r₂.password.getD "").length) :
    (postAuthRegister s r newId).1.status = 201 ∧
    (postAuthRegister s r newId).2
      = { s with users := s.users ++ [registeredUser r newId phone] } ∧
    (registeredUser r newId phone).approvalStatus = "pending" ∧
    (postAuthRegister (postAuthRegister s r newId).2 r₂ newId₂).1
      = ⟨400, .message false "Phone number already registered"⟩ ∧
    (postAuthRegister (postAuthRegister s r newId).2 r₂ newId₂).2
      = (postAuthRegister s r newId).2 := by
  have hne : phone ≠ "" := by
    intro h
    rw [h] at h10
    simp [isTenDigits] at h10
  have htp : truthy (some phone) = true := by simp [truthy, hne]
  have htr : truthy r.employeeNumber = true := by rw [hphone, htp]
  have h2tr : truthy r₂.employeeNumber = true := by rw [h2phone, htp]
  have hnlt : ¬ (r.password.getD "").length < 6 := Nat.not_lt.mpr hlen
  have h2nlt : ¬ (r₂.password.getD "").length < 6 := Nat.not_lt.mpr h2len
  have hae : (s.users.any fun v => v.email == generatedEmail r) = false := by
    rw [List.any_eq_false]
    intro v hv
    simpa using hemail v hv
  have hfr0 : s.users.find? (fun u => u.employeeNumber == phone) = none := hfresh
  have han : (s.users.any fun v => v.employeeNumber == phone) = false := by
    rw [List.any_eq_false]
    intro v hv
    exact List.find?_eq_none.mp hfr0 v hv
  have hreg : postAuthRegister s r newId
      = (⟨201, .registerOk true
            "Registration successful! Wait for admin approval."
            newId (r.name.getD "") phone⟩,
         { s with users := s.users ++ [registeredUser r newId phone] }) := by
    simp [postAuthRegister, userCreate, registeredUser, hname, hpw, htr,
      hdept, hloc, hphone, htp, h10, hnlt, hfresh, hae, han]
  have hfind : findUserByEmployeeNumber
      { s with users := s.users ++ [registeredUser r newId phone] } phone
      = some (registeredUser r newId phone) := by
    unfold findUserByEmployeeNumber at hfresh ⊢
    rw [List.find?_append, hfresh]
    simp [registeredUser]
  refine ⟨by rw [hreg], by rw [hreg], rfl, ?_, ?_⟩
  · rw [hreg]
    simp [postAuthRegister, h2name, h2pw, h2tr, h2dept, h2loc, h2phone,
      htp, h10, h2nlt, hfind]
  · rw [hreg]
    simp [postAuthRegister, h2name, h2pw, h2tr, h2dept, h2loc, h2phone,
      htp, h10, h2nlt, hfind]

/-- C5 witness: registering phone `5555555555` on `sampleStore`
succeeds with a pending account; repeating it is refused. -/
theorem register_pending_then_duplicate_witness :
    (postAuthRegister sampleStore
        { name := some "New", email := none, password := some "abcdef",
          employeeNumber := some "5555555555", department := some "IT",
          workLocation := some "B" } "u3").1.status = 201 ∧
    (postAuthRegister sampleStore
        { name := some "New", email := none, password := some "abcdef",
          employeeNumber := some "5555555555", department := some "IT",
          workLocation := some "B" } "u3").2
      = { sampleStore with users := sampleStore.users ++
          [registeredUser
            { name := some "New", email := none, password := some "abcdef",
              employeeNumber := some "5555555555", department := some "IT",
              workLocation := some "B" } "u3" "5555555555"] } ∧
    (registeredUser
        { name := some "New", email := none, password := some "abcdef",
          employeeNumber := some "5555555555", department := some "IT",
          workLocation := some "B" } "u3" "5555555555").approvalStatus
      = "pending" ∧
    (postAuthRegister (postAuthRegister sampleStore
        { name := some "New", email := none, password := some "abcdef",
          employeeNumber := some "5555555555", department := some "IT",
          workLocation := some "B" } "u3").2
        { name := some "New", email := none, password := some "abcdef",
          employeeNumber := some "5555555555", department := some "IT",
          workLocation := some "B" } "u4").1
      = ⟨400, .message false "Phone number already registered"⟩ ∧
    (postAuthRegister (postAuthRegister sampleStore
        { name := some "New", email := none, password := some "abcdef",
          employeeNumber := some "5555555555", department := some "IT",
          workLocation := some "B" } "u3").2
        { name := some "New", email := none, password := some "abcdef",
          employeeNumber := some "5555555555", department := some "IT",
          workLocation := some "B" } "u4").2
      = (postAuthRegister sampleStore
        { name := some "New", email := none, password := some "abcdef",
          employeeNumber := some "5555555555", department := some "IT",
          workLocation := some "B" } "u3").2 :=
  register_pending_then_duplicate sampleStore
    { name := some "New", email := none, password := some "abcdef",
      employeeNumber := some "5555555555", department := some "IT",
      workLocation := some "B" }
    { name := some "New", email := none, password := some "abcdef",
      employeeNumber := some "5555555555", department := some "IT",
      workLocation := some "B" }
    "u3" "u4" "5555555555" (by decide) (by decide) (by decide) (by decide)
    rfl (by decide) (by decide) (by decide) (by decide) (by decide)
    (by decide) (by decide) (by decide) rfl (by decide)

/-- When the keys `f v` of a list are pairwise distinct, erasing the
first key match is the same as filtering that key out (at most one
document can match). -/
theorem eraseP_eq_filter_of_nodup_keys {α β : Type} [DecidableEq β]
    (f : α → β) (x : β) (l : List α) (h : (l.map f).Nodup) :
    l.eraseP (fun v => f v == x) = l.filter (fun v => ¬ (f v == x)) := by
  induction l with
  | nil => rfl
  | cons a tl ih =>
    rw [List.map_cons, List.nodup_cons] at h
    by_cases ha : (f a == x) = true
    · have hax : f a = x := by simpa using ha
      have htl : tl.filter (fun v => ¬ (f v == x)) = tl := by
        rw [List.filter_eq_self]
        intro v hv
        have hne : f v ≠ f a := fun he => h.1 (he ▸ List.mem_map_of_mem f hv)
        simp [hax ▸ hne]
      rw [List.eraseP_cons, List.filter_cons]
      simp only [ha, cond_true]
      rw [if_neg]
      · exact htl.symm
      · simp [hax]
    · have hb : (f a == x) = false := by simpa using ha
      rw [List.eraseP_cons, List.filter_cons]
      simp only [hb, cond_false]
      rw [if_pos]
      · rw [ih h.2]
      · simp [hb]

/-- C6: the admin delete-user operation removes the target account and
every complaint whose `employeeId` equals the account's identifier,
keeps every other account, and leaves every complaint owned by any
other account in place and unmodified. -/
theorem delete_user_cascades
    (s : Store) (adminTok : Token) (secret : String) (now : Nat)
    (id : String) (u : UserDoc)
    (hgate : adminMiddleware (some adminTok) secret now = none)
    (hu : findUserById s id = some u)
    (hids : (s.users.map (fun v => v._id)).Nodup) :
    (deleteAdminUser s (some adminTok) secret now id).1
      = ⟨200, .message true "User and associated complaints deleted successfully"⟩ ∧
    (∀ v ∈ (deleteAdminUser s (some adminTok) secret now id).2.users,
      v._id ≠ id) ∧
    (∀ v ∈ s.users, v._id ≠ id →
      v ∈ (deleteAdminUser s (some adminTok) secret now id).2.users) ∧
    (∀ c ∈ (deleteAdminUser s (some adminTok) secret now id).2.complaints,
      c.employeeId ≠ id) ∧
    (∀ c ∈ s.complaints, c.employeeId ≠ id →
      c ∈ (deleteAdminUser s (some adminTok) secret now id).2.complaints) ∧
    (∀ c ∈ (deleteAdminUser s (some adminTok) secret now id).2.complaints,
      c ∈ s.complaints) := by
  have hdel : deleteAdminUser s (some adminTok) secret now id
      = (⟨200, .message true "User and associated complaints deleted successfully"⟩,
         { users := s.users.eraseP (fun v => v._id == id),
           complaints := s.complaints.filter (fun c => ¬ (c.employeeId == id)) }) := by
    simp [deleteAdminUser, hgate, hu]
  rw [hdel]
  rw [eraseP_eq_filter_of_nodup_keys (fun v => v._id) id s.users hids]
  refine ⟨rfl, ?_, ?_, ?_, ?_, ?_⟩
  · intro v hv
    simpa using (List.mem_filter.mp hv).2
  · intro v hv hvne
    exact List.mem_filter.mpr ⟨hv, by simpa using hvne⟩
  · intro c hc
    simpa using (List.mem_filter.mp hc).2
  · intro c hc hcne
    exact List.mem_filter.mpr ⟨hc, by simpa using hcne⟩
  · intro c hc
    exact (List.mem_filter.mp hc).1

/-- C6 witness: deleting `u1` from `sampleStore` removes `u1` and
complaint `c1` while `u2` and complaint `c2` survive. -/
theorem delete_user_cascades_witness :
    (deleteAdminUser sampleStore (some sampleAdminToken) sampleSecret 10 "u1").1
      = ⟨200, .message true "User and associated complaints deleted successfully"⟩ ∧
    (∀ v ∈ (deleteAdminUser sampleStore (some sampleAdminToken) sampleSecret
        10 "u1").2.users, v._id ≠ "u1") ∧
    (∀ v ∈ sampleStore.users, v._id ≠ "u1" →
      v ∈ (deleteAdminUser sampleStore (some sampleAdminToken) sampleSecret
        10 "u1").2.users) ∧
    (∀ c ∈ (deleteAdminUser sampleStore (some sampleAdminToken) sampleSecret
        10 "u1").2.complaints, c.employeeId ≠ "u1") ∧
    (∀ c ∈ sampleStore.complaints, c.employeeId ≠ "u1" →
      c ∈ (deleteAdminUser sampleStore (some sampleAdminToken) sampleSecret
        10 "u1").2.complaints) ∧
    (∀ c ∈ (deleteAdminUser sampleStore (some sampleAdminToken) sampleSecret
        10 "u1").2.complaints, c ∈ sampleStore.complaints) :=
  delete_user_cascades sampleStore sampleAdminToken sampleSecret 10 "u1"
    sampleUser (by decide) (by decide) (by decide)

/-- A bcrypt digest is never the plaintext it hashes. -/
theorem bcryptHash_ne (pw : String) : bcryptHash pw ≠ pw := by
  intro h
  have hlen := congrArg String.length h
  rw [bcryptHash, String.length_append] at hlen
  simp at hlen
  exact absurd hlen (by decide)

/-- On success, `userCreate` appends exactly one document, whose
secret field is the bcrypt digest of the submitted password. -/
theorem userCreate_appends (s : Store)
    (newId name email password employeeNumber department workLocation
      approvalStatus : String) (res : UserDoc × Store)
    (h : userCreate s newId name email password employeeNumber department
      workLocation approvalStatus = some res) :
    res.2.users = s.users ++ [res.1] ∧ res.1.password = bcryptHash password := by
  unfold userCreate at h
  split at h
  · cases h
  · cases h
    exact ⟨rfl, rfl⟩

/-- Blank every stored digest (used to state that read projections do
not depend on the secret field). -/
def scrubPasswords (s : Store) : Store :=
  { s with users := s.users.map (fun u => { u with password := "" }) }

/-- C9: (i) any account present after a registration either predates
it or stores the bcrypt digest of the submitted password — never the
plaintext; (ii) the `-password` projection, the login user view and
the issued token ignore the stored secret; (iii) the admin user
listing is unchanged when every stored digest is blanked; (iv) the
registration response does not depend on the password; (v) a
successful login answers only with the token and the password-free
user view. -/
theorem secret_hashed_and_never_in_responses
    (s : Store) (r : RegisterReq) (rl : LoginReq) (newId : String)
    (u : UserDoc) (x pw₁ pw₂ : String) (secret : String) (now : Nat)
    (auth : Option Token)
    (hpw1 : 6 ≤ pw₁.length) (hpw2 : 6 ≤ pw₂.length) :
    (∀ v ∈ (postAuthRegister s r newId).2.users, v ∈ s.users ∨
      (v.password = bcryptHash (r.password.getD "") ∧
       v.password ≠ r.password.getD "")) ∧
    selectMinusPassword { u with password := x } = selectMinusPassword u ∧
    loginUserView { u with password := x } = loginUserView u ∧
    generateAuthToken { u with password := x } secret now
      = generateAuthToken u secret now ∧
    getAdminUsers (scrubPasswords s) auth secret now
      = getAdminUsers s auth secret now ∧
    (postAuthRegister s { r with password := some pw₁ } newId).1
      = (postAuthRegister s { r with password := some pw₂ } newId).1 ∧
    (truthy rl.email = true → truthy rl.password = true →
      findUserByEmployeeNumber s (rl.email.getD "") = some u →
      comparePassword u (rl.password.getD "") = true →
      u.approvalStatus = "approved" →
      postAuthLogin s rl secret now
        = ⟨200, .loginOk true (generateAuthToken u secret now)
            (loginUserView u)⟩) := by
  have hcomp : (selectMinusPassword ∘ (fun v : UserDoc => { v with password := "" }))
      = selectMinusPassword := funext fun v => rfl
  refine ⟨?_, rfl, rfl, rfl, ?_, ?_, ?_⟩
  · unfold postAuthRegister
    split
    · intro v hv; exact Or.inl hv
    split
    · intro v hv; exact Or.inl hv
    split
    · intro v hv; exact Or.inl hv
    split
    · intro v hv; exact Or.inl hv
    cases hc : userCreate s newId (r.name.getD "") (generatedEmail r)
        (r.password.getD "") (r.employeeNumber.getD "") (r.department.getD "")
        (r.workLocation.getD "") "pending" with
    | none => intro v hv; exact Or.inl hv
    | some res =>
      obtain ⟨u', s'⟩ := res
      obtain ⟨hus, hpwd⟩ := userCreate_appends s newId (r.name.getD "")
        (generatedEmail r) (r.password.getD "") (r.employeeNumber.getD "")
        (r.department.getD "") (r.workLocation.getD "") "pending" (u', s') hc
      intro v hv
      simp only at hv
      rw [hus] at hv
      rcases List.mem_append.mp hv with h | h
      · exact Or.inl h
      · rcases List.mem_singleton.mp h with rfl
        exact Or.inr ⟨hpwd, hpwd ▸ bcryptHash_ne _⟩
  · cases hg : adminMiddleware auth secret now with
    | some resp => simp [getAdminUsers, hg]
    | none => simp [getAdminUsers, hg, scrubPasswords, List.map_map, hcomp]
  · have h1 : pw₁ ≠ "" := by
      intro h
      rw [h] at hpw1
      simp at hpw1
    have h2 : pw₂ ≠ "" := by
      intro h
      rw [h] at hpw2
      simp at hpw2
    have ht1 : truthy (some pw₁) = true := by simp [truthy, h1]
    have ht2 : truthy (some pw₂) = true := by simp [truthy, h2]
    have hn1 : ¬ pw₁.length < 6 := Nat.not_lt.mpr hpw1
    have hn2 : ¬ pw₂.length < 6 := Nat.not_lt.mpr hpw2
    have hge1 : generatedEmail { r with password := some pw₁ }
        = generatedEmail r := rfl
    have hge2 : generatedEmail { r with password := some pw₂ }
        = generatedEmail r := rfl
    simp only [postAuthRegister, userCreate, ht1, ht2, hn1, hn2, hge1, hge2,
      Option.getD_some, Bool.and_true, Bool.true_and]
    split
    · rfl
    split
    · rfl
    split
    · rfl
    cases hB : ((s.users.any fun v => v.email == generatedEmail r) ||
        (s.users.any fun v => v.employeeNumber == r.employeeNumber.getD "")) with
    | true => simp [hB]
    | false => split <;> rfl
  · intro hle hlp hlu hcmp happ
    simp [postAuthLogin, hle, hlp, hlu, hcmp, happ]

/-- C9 witness: the hashing invariant and password-free projections at
concrete inputs on `sampleStore`. -/
theorem secret_hashed_and_never_in_responses_witness :
    (∀ v ∈ (postAuthRegister sampleStore
        { name := some "New", email := none, password := some "abcdef",
          employeeNumber := some "5555555555", department := some "IT",
          workLocation := some "B" } "u3").2.users,
      v ∈ sampleStore.users ∨
      (v.password = bcryptHash ((some "abcdef").getD "") ∧
       v.password ≠ (some "abcdef").getD "")) ∧
    selectMinusPassword { sampleUser with password := "XX" }
      = selectMinusPassword sampleUser ∧
    loginUserView { sampleUser with password := "XX" }
      = loginUserView sampleUser ∧
    generateAuthToken { sampleUser with password := "XX" } sampleSecret 0
      = generateAuthToken sampleUser sampleSecret 0 ∧
    getAdminUsers (scrubPasswords sampleStore) (some sampleAdminToken)
        sampleSecret 0
      = getAdminUsers sampleStore (some sampleAdminToken) sampleSecret 0 ∧
    (postAuthRegister sampleStore
        { name := some "New", email := none, password := some "abcdef",
          employeeNumber := some "5555555555", department := some "IT",
          workLocation := some "B" } "u3").1
      = (postAuthRegister sampleStore
        { name := some "New", email := none, password := some "zyxwvu",
          employeeNumber := some "5555555555", department := some "IT",
          workLocation := some "B" } "u3").1 ∧
    (truthy (some "9876543210") = true → truthy (some "secret1") = true →
      findUserByEmployeeNumber sampleStore ((some "9876543210").getD "")
        = some sampleUser →
      comparePassword sampleUser ((some "secret1").getD "") = true →
      sampleUser.approvalStatus = "approved" →
      postAuthLogin sampleStore
          { email := some "9876543210", password := some "secret1" }
          sampleSecret 0
        = ⟨200, .loginOk true (generateAuthToken sampleUser sampleSecret 0)
            (loginUserView sampleUser)⟩) :=
  secret_hashed_and_never_in_responses sampleStore
    { name := some "New", email := none, password := some "abcdef",
      employeeNumber := some "5555555555", department := some "IT",
      workLocation := some "B" }
    { email := some "9876543210", password := some "secret1" }
    "u3" sampleUser "XX" "abcdef" "zyxwvu" sampleSecret 0
    (some sampleAdminToken) (by decide) (by decide)

end ComplaintBox
